import Mathlib

/-! Formal model of the function-portal core: the configuration store, the
execution recorder, the call executor and the read-side query service from
`app/models.py` and `app/services.py`. The HTTP transport outcome and the
wall-clock readings taken during a call are explicit inputs of the model;
everything else is translated directly from the source. -/

/-- Python string slicing `s[:n]`: the first `n` characters of `s`. -/
def pySlice (s : String) (n : Nat) : String := ⟨s.toList.take n⟩

/-- Python `str.upper()` on the ASCII method names the service handles. -/
def pyUpper (s : String) : String := ⟨s.toList.map Char.toUpper⟩

/-- Status of an API call execution (`CallStatus` enum, app/models.py). -/
inductive CallStatus where
  | pending
  | running
  | success
  | failed
  | timeout
deriving DecidableEq, Repr

/-- Row of the `function_configs` table (`FunctionConfig`, app/models.py).
Timestamps are integers (an abstract epoch-millisecond reading of
`datetime.utcnow()`); JSON dictionary values are abstracted as strings, since
the service layer never inspects them. -/
structure FunctionConfig where
  id : Nat
  name : String
  description : String
  endpoint_url : String
  http_method : String
  headers : List (String × String)
  payload : List (String × String)
  timeout_seconds : Int
  is_active : Bool
  button_color : String
  display_order : Int
  created_at : Int
  updated_at : Int
deriving DecidableEq, Repr

/-- Row of the `function_executions` table (`FunctionExecution`, app/models.py).
`id` is always assigned by the store in this model (autoincrement primary key). -/
structure FunctionExecution where
  id : Nat
  function_config_id : Nat
  status : CallStatus
  started_at : Int
  completed_at : Option Int
  duration_ms : Option Int
  request_url : String
  request_method : String
  request_headers : List (String × String)
  request_payload : List (String × String)
  response_status_code : Option Int
  response_headers : List (String × String)
  response_body : String
  error_message : String
deriving DecidableEq, Repr

/-- Creation schema (`FunctionConfigCreate`, app/models.py). Its pydantic
field constraints are `max_length` caps on the strings and `ge=1, le=300` on
`timeout_seconds`; they are embodied by `FunctionConfigCreate.validate` below. -/
structure FunctionConfigCreate where
  name : String
  description : String := ""
  endpoint_url : String
  http_method : String := "POST"
  headers : List (String × String) := []
  payload : List (String × String) := []
  timeout_seconds : Int := 30
  is_active : Bool := true
  button_color : String := "primary"
  display_order : Int := 0
deriving DecidableEq, Repr

/-- Validating constructor of `FunctionConfigCreate`: exactly the pydantic
constraints declared on the schema (app/models.py lines 101-113). A failure
carries a message naming the offending field. -/
def FunctionConfigCreate.validate (d : FunctionConfigCreate) : Except String FunctionConfigCreate :=
  if d.name.length > 100 then .error "name: string too long"
  else if d.description.length > 500 then .error "description: string too long"
  else if d.endpoint_url.length > 500 then .error "endpoint_url: string too long"
  else if d.http_method.length > 10 then .error "http_method: string too long"
  else if d.timeout_seconds < 1 then .error "timeout_seconds: value below minimum of 1"
  else if d.timeout_seconds > 300 then .error "timeout_seconds: value above maximum of 300"
  else if d.button_color.length > 20 then .error "button_color: string too long"
  else .ok d

/-- Update schema (`FunctionConfigUpdate`, app/models.py): every field optional. -/
structure FunctionConfigUpdate where
  name : Option String := none
  description : Option String := none
  endpoint_url : Option String := none
  http_method : Option String := none
  headers : Option (List (String × String)) := none
  payload : Option (List (String × String)) := none
  timeout_seconds : Option Int := none
  is_active : Option Bool := none
  button_color : Option String := none
  display_order : Option Int := none
deriving DecidableEq, Repr

/-- Summary view of an execution for display (`ExecutionSummary`, app/models.py). -/
structure ExecutionSummary where
  id : Nat
  function_name : String
  status : CallStatus
  started_at : Int
  completed_at : Option Int
  duration_ms : Option Int
  response_status_code : Option Int
  success : Bool
deriving DecidableEq, Repr

/-- Outcome of one attempt of the httpx transport to perform the dispatched
request (app/services.py lines 108-156): a response with some status code,
a timeout (`httpx.TimeoutException`), an `httpx.HTTPStatusError` carrying a
response, or any other exception rendered by `str(e)`. -/
inductive NetOutcome where
  | response (status_code : Int) (headers : List (String × String)) (text : String)
  | timedOut
  | httpStatusError (status_code : Int) (text : String)
  | exc (message : String)
deriving DecidableEq, Repr

/-- The two early failures `execute_function` can raise (app/services.py
lines 70-71 and 88-89): unknown configuration id, or a record that was
persisted without an id. -/
inductive ExecError where
  | notFound (config_id : Nat)
  | noId
deriving DecidableEq, Repr

/-- The persistent state: both tables plus the autoincrement counters of
their primary keys. -/
structure Store where
  configs : List FunctionConfig
  executions : List FunctionExecution
  nextConfigId : Nat
  nextExecId : Nat
deriving DecidableEq, Repr

deriving instance DecidableEq for Except

/-- A freshly initialised database. -/
def emptyStore : Store := ⟨[], [], 1, 1⟩

/-- session.get(FunctionConfig, config_id). -/
def findConfig (s : Store) (config_id : Nat) : Option FunctionConfig :=
  s.configs.find? (fun c => c.id == config_id)

/-- session.get(FunctionExecution, execution_id). -/
def findExecution (s : Store) (execution_id : Nat) : Option FunctionExecution :=
  s.executions.find? (fun e => e.id == execution_id)

/-- session.get + mutate + commit on one execution row: a no-op when the id
is absent, as in the source (app/services.py lines 140-149 and 163-172). -/
def updateExecution (s : Store) (execution_id : Nat)
    (f : FunctionExecution → FunctionExecution) : Store :=
  { s with executions := s.executions.map (fun e => if e.id == execution_id then f e else e) }

/-- Ascending (display_order, name) order used by `get_all_active`
(app/services.py line 27). -/
def configOrder (a b : FunctionConfig) : Prop :=
  a.display_order < b.display_order ∨ (a.display_order = b.display_order ∧ a.name ≤ b.name)

instance (a b : FunctionConfig) : Decidable (configOrder a b) := by
  unfold configOrder; infer_instance

instance : IsTotal FunctionConfig configOrder := by
  constructor
  intro a b
  rcases lt_trichotomy a.display_order b.display_order with h | h | h
  · exact Or.inl (Or.inl h)
  · rcases le_total a.name b.name with hn | hn
    · exact Or.inl (Or.inr ⟨h, hn⟩)
    · exact Or.inr (Or.inr ⟨h.symm, hn⟩)
  · exact Or.inr (Or.inl h)

instance : IsTrans FunctionConfig configOrder := by
  constructor
  intro a b c hab hbc
  rcases hab with h1 | ⟨h1, h1n⟩
  · rcases hbc with h2 | ⟨h2, _⟩
    · exact Or.inl (h1.trans h2)
    · exact Or.inl (h2 ▸ h1)
  · rcases hbc with h2 | ⟨h2, h2n⟩
    · exact Or.inl (h1 ▸ h2)
    · exact Or.inr ⟨h1.trans h2, h1n.trans h2n⟩

/-- Descending started_at order used by `get_recent_executions`
(app/services.py line 181), on rows already joined with the config name. -/
def execDescOrder (a b : FunctionExecution × String) : Prop :=
  b.1.started_at ≤ a.1.started_at

instance (a b : FunctionExecution × String) : Decidable (execDescOrder a b) := by
  unfold execDescOrder; infer_instance

instance : IsTotal (FunctionExecution × String) execDescOrder := by
  constructor
  intro a b
  unfold execDescOrder
  exact (le_total b.1.started_at a.1.started_at).imp id id

instance : IsTrans (FunctionExecution × String) execDescOrder := by
  constructor
  intro a b c hab hbc
  exact le_trans hbc hab

namespace FunctionConfigService

/-- FunctionConfigService.get_all_active (app/services.py lines 18-29):
filter is_active, order ascending by (display_order, name). -/
def get_all_active (s : Store) : List FunctionConfig :=
  List.insertionSort configOrder (s.configs.filter (fun c => c.is_active))

/-- FunctionConfigService.get_by_id (app/services.py lines 31-35). -/
def get_by_id (s : Store) (config_id : Nat) : Option FunctionConfig :=
  findConfig s config_id

/-- FunctionConfigService.create (app/services.py lines 37-46): build the row
from the creation schema, set updated_at (and created_at, via the default
factory) to now, persist, return the stored record. -/
def create (s : Store) (d : FunctionConfigCreate) (now : Int) : Store × FunctionConfig :=
  let config : FunctionConfig :=
    { id := s.nextConfigId
      name := d.name
      description := d.description
      endpoint_url := d.endpoint_url
      http_method := d.http_method
      headers := d.headers
      payload := d.payload
      timeout_seconds := d.timeout_seconds
      is_active := d.is_active
      button_color := d.button_color
      display_order := d.display_order
      created_at := now
      updated_at := now }
  ({ s with configs := s.configs ++ [config], nextConfigId := s.nextConfigId + 1 }, config)

/-- FunctionConfigService.delete (app/services.py lines 48-57). -/
def delete (s : Store) (config_id : Nat) : Store × Bool :=
  match findConfig s config_id with
  | none => (s, false)
  | some _ =>
      ({ s with configs := s.configs.filter (fun c => !(c.id == config_id)) }, true)

/-- Modelled from the spec: applying a `FunctionConfigUpdate` to a stored
configuration. The repository declares the update schema (app/models.py
lines 116-129) but ships no update service; the spec requires updated_at to
be refreshed on every field mutation and executions to be unaffected. -/
def update_config (s : Store) (config_id : Nat) (u : FunctionConfigUpdate) (now : Int) : Store :=
  { s with configs := s.configs.map (fun c =>
      if c.id == config_id then
        { c with
          name := u.name.getD c.name
          description := u.description.getD c.description
          endpoint_url := u.endpoint_url.getD c.endpoint_url
          http_method := u.http_method.getD c.http_method
          headers := u.headers.getD c.headers
          payload := u.payload.getD c.payload
          timeout_seconds := u.timeout_seconds.getD c.timeout_seconds
          is_active := u.is_active.getD c.is_active
          button_color := u.button_color.getD c.button_color
          display_order := u.display_order.getD c.display_order
          updated_at := now }
      else c) }

end FunctionConfigService

/-- The methods the dispatch of `_execute_api_call` supports
(app/services.py lines 108-130). -/
def supportedMethod (m : String) : Bool :=
  m == "GET" || m == "POST" || m == "PUT" || m == "DELETE"

namespace FunctionExecutionService

/-- FunctionExecutionService._mark_execution_failed (app/services.py lines
158-172). `tNowA` is the `utcnow()` stored into completed_at (line 166) and
`tNowB` the second `utcnow()` used for the duration (line 169); started_at is
always present on a row, so the duration is always computed. -/
def mark_execution_failed (s : Store) (execution_id : Nat) (error_message : String)
    (status : CallStatus) (tNowA tNowB : Int) : Store :=
  updateExecution s execution_id (fun e =>
    { e with
      status := status
      completed_at := some tNowA
      error_message := pySlice error_message 1000
      duration_ms := some (tNowB - e.started_at) })

/-- FunctionExecutionService._execute_api_call (app/services.py lines 98-156).
`t1` is `start_time` (line 100), `t2` the end-of-call reading (line 135 on
success, line 166 on failure) and `t3` the second failure-path reading
(line 169). The unsupported-method ValueError raised at line 132 is caught by
the generic handler at line 155 with message `str(e)`. -/
def execute_api_call (s : Store) (execution_id : Nat) (config : FunctionConfig)
    (net : NetOutcome) (t1 t2 t3 : Int) : Store :=
  let method := pyUpper config.http_method
  if supportedMethod method then
    match net with
    | .response code hdrs text =>
        updateExecution s execution_id (fun e =>
          { e with
            status := CallStatus.success
            completed_at := some t2
            duration_ms := some (t2 - t1)
            response_status_code := some code
            response_headers := hdrs
            response_body := pySlice text 10000 })
    | .timedOut =>
        mark_execution_failed s execution_id "Request timed out" CallStatus.timeout t2 t3
    | .httpStatusError code text =>
        mark_execution_failed s execution_id
          ("HTTP " ++ toString code ++ ": " ++ pySlice text 500) CallStatus.failed t2 t3
    | .exc message =>
        mark_execution_failed s execution_id message CallStatus.failed t2 t3
  else
    mark_execution_failed s execution_id ("Unsupported HTTP method: " ++ method)
      CallStatus.failed t2 t3

/-- The fresh RUNNING execution row `execute_function` creates
(app/services.py lines 74-85): the request fields are a verbatim snapshot of
the configuration, every response field is at its column default. -/
def newExecution (s : Store) (config_id : Nat) (config : FunctionConfig)
    (t0 : Int) : FunctionExecution :=
  { id := s.nextExecId
    function_config_id := config_id
    status := CallStatus.running
    started_at := t0
    completed_at := none
    duration_ms := none
    request_url := config.endpoint_url
    request_method := config.http_method
    request_headers := config.headers
    request_payload := config.payload
    response_status_code := none
    response_headers := []
    response_body := ""
    error_message := "" }

/-- FunctionExecutionService.execute_function (app/services.py lines 66-96).
`t0` is the `utcnow()` stored into started_at (line 77); the remaining time
readings are forwarded to `execute_api_call`. The primary key is assigned by
the store, so the `.noId` early failure (line 89) is unreachable here; its
branch is kept to mirror the source. -/
def execute_function (s : Store) (config_id : Nat) (net : NetOutcome)
    (t0 t1 t2 t3 : Int) : Store × Except ExecError FunctionExecution :=
  match findConfig s config_id with
  | none => (s, .error (.notFound config_id))
  | some config =>
      let execution := newExecution s config_id config t0
      let s1 : Store :=
        { s with executions := s.executions ++ [execution], nextExecId := s.nextExecId + 1 }
      let s2 := execute_api_call s1 s.nextExecId config net t1 t2 t3
      match findExecution s2 s.nextExecId with
      | some e => (s2, .ok e)
      | none => (s2, .error .noId)

/-- FunctionExecutionService.get_recent_executions (app/services.py lines
174-210): inner join of executions with their configuration row, ordered by
started_at descending, limited, then projected to summaries. Persisted rows
always carry an id in this model, so the id-is-None skip (line 195) never
fires. -/
def get_recent_executions (s : Store) (limit : Nat) : List ExecutionSummary :=
  let rows := s.executions.filterMap (fun e =>
    (findConfig s e.function_config_id).map (fun c => (e, c.name)))
  let ordered := List.insertionSort execDescOrder rows
  (ordered.take limit).map (fun r =>
    { id := r.1.id
      function_name := r.2
      status := r.1.status
      started_at := r.1.started_at
      completed_at := r.1.completed_at
      duration_ms := r.1.duration_ms
      response_status_code := r.1.response_status_code
      success := r.1.status == CallStatus.success &&
        match r.1.response_status_code with
        | some code => decide (200 ≤ code) && decide (code < 300)
        | none => false })

/-- FunctionExecutionService.get_execution_details (app/services.py 212-216). -/
def get_execution_details (s : Store) (execution_id : Nat) : Option FunctionExecution :=
  findExecution s execution_id

end FunctionExecutionService

/-- One externally triggered operation on the store: the configuration CRUD
calls and one full `execute_function` call with its transport outcome and its
four wall-clock readings. -/
inductive Op where
  | createConfig (d : FunctionConfigCreate) (now : Int)
  | deleteConfig (config_id : Nat)
  | updateConfig (config_id : Nat) (u : FunctionConfigUpdate) (now : Int)
  | execute (config_id : Nat) (net : NetOutcome) (t0 t1 t2 t3 : Int)
deriving DecidableEq, Repr

/-- The store an operation leaves behind. -/
def applyOp (s : Store) : Op → Store
  | .createConfig d now => (FunctionConfigService.create s d now).1
  | .deleteConfig config_id => (FunctionConfigService.delete s config_id).1
  | .updateConfig config_id u now => FunctionConfigService.update_config s config_id u now
  | .execute config_id net t0 t1 t2 t3 =>
      (FunctionExecutionService.execute_function s config_id net t0 t1 t2 t3).1

/-- A trace of operations starting from a given store. -/
def runOps (s : Store) (ops : List Op) : Store := ops.foldl applyOp s

/-- Monotonicity of the wall clock across the four readings of one call. -/
def Op.wf : Op → Prop
  | .execute _ _ t0 t1 t2 t3 => t0 ≤ t1 ∧ t1 ≤ t2 ∧ t2 ≤ t3
  | _ => True

instance (op : Op) : Decidable op.wf := by
  cases op <;> simp only [Op.wf] <;> infer_instance

/-- The rendered text of a generic transport exception is non-empty. -/
def Op.failDescNonEmpty : Op → Prop
  | .execute _ (.exc message) _ _ _ _ => message ≠ ""
  | _ => True

instance (op : Op) : Decidable op.failDescNonEmpty := by
  unfold Op.failDescNonEmpty
  split <;> infer_instance

/-- What `_execute_api_call` does to the one row it finalizes, as a record
transformer: the branch-by-branch content of app/services.py lines 102-156. -/
def finalizeExec (config : FunctionConfig) (net : NetOutcome) (t1 t2 t3 : Int)
    (e : FunctionExecution) : FunctionExecution :=
  if supportedMethod (pyUpper config.http_method) then
    match net with
    | .response code hdrs text =>
        { e with
          status := CallStatus.success
          completed_at := some t2
          duration_ms := some (t2 - t1)
          response_status_code := some code
          response_headers := hdrs
          response_body := pySlice text 10000 }
    | .timedOut =>
        { e with
          status := CallStatus.timeout
          completed_at := some t2
          error_message := pySlice "Request timed out" 1000
          duration_ms := some (t3 - e.started_at) }
    | .httpStatusError code text =>
        { e with
          status := CallStatus.failed
          completed_at := some t2
          error_message := pySlice ("HTTP " ++ toString code ++ ": " ++ pySlice text 500) 1000
          duration_ms := some (t3 - e.started_at) }
    | .exc message =>
        { e with
          status := CallStatus.failed
          completed_at := some t2
          error_message := pySlice message 1000
          duration_ms := some (t3 - e.started_at) }
  else
    { e with
      status := CallStatus.failed
      completed_at := some t2
      error_message := pySlice ("Unsupported HTTP method: " ++ pyUpper config.http_method) 1000
      duration_ms := some (t3 - e.started_at) }

lemma execute_api_call_eq (s : Store) (execution_id : Nat) (config : FunctionConfig)
    (net : NetOutcome) (t1 t2 t3 : Int) :
    FunctionExecutionService.execute_api_call s execution_id config net t1 t2 t3
      = updateExecution s execution_id (finalizeExec config net t1 t2 t3) := by
  show _ = updateExecution s execution_id (fun e => finalizeExec config net t1 t2 t3 e)
  cases hm : supportedMethod (pyUpper config.http_method) <;> cases net <;>
    simp [FunctionExecutionService.execute_api_call,
      FunctionExecutionService.mark_execution_failed, finalizeExec, hm]

lemma finalizeExec_fixed (config : FunctionConfig) (net : NetOutcome) (t1 t2 t3 : Int)
    (e : FunctionExecution) :
    (finalizeExec config net t1 t2 t3 e).id = e.id ∧
    (finalizeExec config net t1 t2 t3 e).function_config_id = e.function_config_id ∧
    (finalizeExec config net t1 t2 t3 e).started_at = e.started_at ∧
    (finalizeExec config net t1 t2 t3 e).request_url = e.request_url ∧
    (finalizeExec config net t1 t2 t3 e).request_method = e.request_method ∧
    (finalizeExec config net t1 t2 t3 e).request_headers = e.request_headers ∧
    (finalizeExec config net t1 t2 t3 e).request_payload = e.request_payload := by
  unfold finalizeExec
  cases net <;> dsimp only <;> split <;>
    exact ⟨rfl, rfl, rfl, rfl, rfl, rfl, rfl⟩

lemma finalizeExec_terminal (config : FunctionConfig) (net : NetOutcome) (t1 t2 t3 : Int)
    (e : FunctionExecution) :
    (finalizeExec config net t1 t2 t3 e).status = CallStatus.success ∨
    (finalizeExec config net t1 t2 t3 e).status = CallStatus.failed ∨
    (finalizeExec config net t1 t2 t3 e).status = CallStatus.timeout := by
  unfold finalizeExec
  cases net <;> dsimp only <;> split <;> simp

lemma map_skip_of_ne (l : List FunctionExecution) (target : Nat)
    (f : FunctionExecution → FunctionExecution) (h : ∀ e ∈ l, e.id ≠ target) :
    l.map (fun e => if e.id == target then f e else e) = l := by
  calc l.map (fun e => if e.id == target then f e else e) = l.map id := by
        apply List.map_congr_left
        intro e he
        simp [h e he]
    _ = l := List.map_id l

/-- Characterization of one `execute_function` call on a store whose execution
ids are fresh: the call appends exactly one finalized row, built from the
snapshot of the found configuration, and returns it. -/
lemma execute_function_run (s : Store) (config_id : Nat) (config : FunctionConfig)
    (net : NetOutcome) (t0 t1 t2 t3 : Int)
    (hc : findConfig s config_id = some config)
    (hf : ∀ e ∈ s.executions, e.id ≠ s.nextExecId) :
    FunctionExecutionService.execute_function s config_id net t0 t1 t2 t3 =
      ({ s with
          executions := s.executions ++
            [finalizeExec config net t1 t2 t3
              (FunctionExecutionService.newExecution s config_id config t0)],
          nextExecId := s.nextExecId + 1 },
        Except.ok (finalizeExec config net t1 t2 t3
          (FunctionExecutionService.newExecution s config_id config t0))) := by
  unfold FunctionExecutionService.execute_function
  rw [hc]
  dsimp only
  rw [execute_api_call_eq]
  unfold updateExecution findExecution
  dsimp only
  rw [List.map_append, map_skip_of_ne s.executions s.nextExecId _ hf]
  have hid : (FunctionExecutionService.newExecution s config_id config t0).id = s.nextExecId := rfl
  have hmap : [FunctionExecutionService.newExecution s config_id config t0].map
      (fun e => if e.id == s.nextExecId then finalizeExec config net t1 t2 t3 e else e)
      = [finalizeExec config net t1 t2 t3
          (FunctionExecutionService.newExecution s config_id config t0)] := by
    simp [hid]
  rw [hmap]
  rw [List.find?_append]
  have hnone : s.executions.find?
      (fun e => e.id == s.nextExecId) = none := by
    rw [List.find?_eq_none]
    intro e he
    simp [hf e he]
  rw [hnone]
  have hfind : [finalizeExec config net t1 t2 t3
      (FunctionExecutionService.newExecution s config_id config t0)].find?
      (fun e => e.id == s.nextExecId) =
      some (finalizeExec config net t1 t2 t3
        (FunctionExecutionService.newExecution s config_id config t0)) := by
    have := (finalizeExec_fixed config net t1 t2 t3
      (FunctionExecutionService.newExecution s config_id config t0)).1
    simp [List.find?, this, hid]
  rw [hfind]
  rfl

lemma pySlice_length_le (s : String) (n : Nat) : (pySlice s n).length ≤ n := by
  show (s.toList.take n).length ≤ n
  simp [List.length_take]

lemma pySlice_eq_self {s : String} {n : Nat} (h : s.length ≤ n) : pySlice s n = s := by
  apply String.ext
  show s.toList.take n = s.data
  exact List.take_of_length_le h

lemma pySlice_ne_empty {s : String} (hs : s ≠ "") {n : Nat} (hn : 0 < n) :
    pySlice s n ≠ "" := by
  intro hcontra
  apply hs
  apply String.ext
  have hdata : s.data.take n = [] := congrArg String.data hcontra
  rcases s with ⟨data⟩
  cases data with
  | nil => rfl
  | cons c cs =>
      cases n with
      | zero => omega
      | succ m => simp at hdata

lemma toList_append (a b : String) : (a ++ b).toList = a.toList ++ b.toList := by
  rcases a with ⟨da⟩
  rcases b with ⟨db⟩
  rfl

lemma length_append_str (a b : String) : (a ++ b).length = a.length + b.length := by
  show (a ++ b).data.length = a.data.length + b.data.length
  rw [show (a ++ b).data = a.data ++ b.data from congrArg String.data rfl]
  · exact List.length_append a.data b.data

lemma pyUpper_length (s : String) : (pyUpper s).length = s.length := by
  show (s.toList.map Char.toUpper).length = s.data.length
  simp

/-- Size caps the recorder enforces on every stored row (app/services.py
lines 147 and 167): response bodies at 10,000 characters, error messages at
1,000 characters. -/
def execBounds (e : FunctionExecution) : Prop :=
  e.response_body.length ≤ 10000 ∧ e.error_message.length ≤ 1000

lemma finalizeExec_bounds (config : FunctionConfig) (net : NetOutcome) (t1 t2 t3 : Int)
    (e : FunctionExecution) (he : execBounds e) :
    execBounds (finalizeExec config net t1 t2 t3 e) := by
  rcases he with ⟨hb, hm⟩
  unfold execBounds finalizeExec
  cases net <;> dsimp only <;> split <;>
    refine ⟨?_, ?_⟩ <;> first
      | exact hb
      | exact hm
      | exact pySlice_length_le _ _

lemma newExecution_bounds (s : Store) (config_id : Nat) (config : FunctionConfig) (t0 : Int) :
    execBounds (FunctionExecutionService.newExecution s config_id config t0) := by
  constructor <;> simp [FunctionExecutionService.newExecution, String.length]

lemma store_fst_of_execute (s : Store) (config_id : Nat) (net : NetOutcome) (t0 t1 t2 t3 : Int) :
    (FunctionExecutionService.execute_function s config_id net t0 t1 t2 t3).1
      = match findConfig s config_id with
        | none => s
        | some config =>
            updateExecution
              { s with
                executions := s.executions ++
                  [FunctionExecutionService.newExecution s config_id config t0],
                nextExecId := s.nextExecId + 1 }
              s.nextExecId (finalizeExec config net t1 t2 t3) := by
  unfold FunctionExecutionService.execute_function
  cases hc : findConfig s config_id with
  | none => rfl
  | some config =>
      dsimp only
      rw [execute_api_call_eq]
      split <;> rfl

lemma bounds_applyOp (s : Store) (op : Op)
    (h : ∀ e ∈ s.executions, execBounds e) :
    ∀ e ∈ (applyOp s op).executions, execBounds e := by
  cases op with
  | createConfig d now => exact h
  | deleteConfig config_id =>
      simp only [applyOp, FunctionConfigService.delete]
      split <;> exact h
  | updateConfig config_id u now => exact h
  | execute config_id net t0 t1 t2 t3 =>
      show ∀ e ∈ (FunctionExecutionService.execute_function s config_id net t0 t1 t2 t3).1.executions,
        execBounds e
      rw [store_fst_of_execute]
      cases hc : findConfig s config_id with
      | none => exact h
      | some config =>
          dsimp only [updateExecution]
          intro e he
          rw [List.mem_map] at he
          obtain ⟨x, hx, hxe⟩ := he
          rw [List.mem_append] at hx
          have hxb : execBounds x := by
            rcases hx with hx | hx
            · exact h x hx
            · rw [List.mem_singleton] at hx
              subst hx
              exact newExecution_bounds s config_id config t0
          subst hxe
          by_cases hid : (x.id == s.nextExecId) = true
          · rw [if_pos hid]
            exact finalizeExec_bounds config net t1 t2 t3 x hxb
          · rw [if_neg hid]
            exact hxb

lemma bounds_runOps (ops : List Op) (s : Store)
    (h : ∀ e ∈ s.executions, execBounds e) :
    ∀ e ∈ (runOps s ops).executions, execBounds e := by
  induction ops generalizing s with
  | nil => exact h
  | cons op ops ih => exact ih (applyOp s op) (bounds_applyOp s op h)

/-- Internal consistency of a finalized execution row, as the recorder
guarantees it: terminal status comes with completion time and a non-negative
duration, SUCCESS comes with a response status code and an empty error text,
TIMEOUT carries the fixed timeout message, and an error text only ever
appears on FAILED or TIMEOUT rows. -/
def execRecordOk (e : FunctionExecution) : Prop :=
  ((e.status = CallStatus.success ∨ e.status = CallStatus.failed ∨
      e.status = CallStatus.timeout) →
    e.completed_at.isSome = true ∧ e.duration_ms.isSome = true ∧ 0 ≤ e.duration_ms.getD 0) ∧
  (e.status = CallStatus.success →
    e.response_status_code.isSome = true ∧ e.error_message = "") ∧
  (e.status = CallStatus.timeout → e.error_message = "Request timed out") ∧
  (e.error_message ≠ "" → e.status = CallStatus.failed ∨ e.status = CallStatus.timeout)

/-- Primary keys handed out so far are below the autoincrement counter. -/
def storeFresh (s : Store) : Prop := ∀ e ∈ s.executions, e.id < s.nextExecId

/-- Reachable-store invariant: fresh ids and internally consistent rows. -/
def StoreOk (s : Store) : Prop :=
  storeFresh s ∧ ∀ e ∈ s.executions, execRecordOk e

/-- Every FAILED row carries a non-empty error message. -/
def StoreStrict (s : Store) : Prop :=
  ∀ e ∈ s.executions, e.status = CallStatus.failed → e.error_message ≠ ""

lemma append_ne_empty_left {a : String} (ha : a ≠ "") (b : String) : a ++ b ≠ "" := by
  intro h
  apply ha
  apply String.ext
  have hd : (a ++ b).data = a.data ++ b.data := rfl
  have hnil : a.data ++ b.data = [] := by
    rw [← hd]
    exact congrArg String.data h
  exact (List.append_eq_nil.mp hnil).1

lemma finalizeExec_recordOk (s : Store) (config_id : Nat) (config : FunctionConfig)
    (net : NetOutcome) (t0 t1 t2 t3 : Int)
    (hwf : t0 ≤ t1 ∧ t1 ≤ t2 ∧ t2 ≤ t3) :
    execRecordOk (finalizeExec config net t1 t2 t3
      (FunctionExecutionService.newExecution s config_id config t0)) := by
  obtain ⟨h01, h12, h23⟩ := hwf
  have hts : pySlice "Request timed out" 1000 = "Request timed out" := by decide
  cases net <;>
    unfold finalizeExec FunctionExecutionService.newExecution <;> dsimp only <;> split <;>
    refine ⟨?_, ?_, ?_, ?_⟩ <;> intro hh <;> simp_all [execRecordOk, Option.getD] <;> omega

lemma finalizeExec_strict (config : FunctionConfig) (net : NetOutcome) (t1 t2 t3 : Int)
    (e : FunctionExecution) (hnd : ∀ m, net = NetOutcome.exc m → m ≠ "") :
    (finalizeExec config net t1 t2 t3 e).status = CallStatus.failed →
    (finalizeExec config net t1 t2 t3 e).error_message ≠ "" := by
  have hcap : (0 : Nat) < 1000 := by omega
  cases net with
  | response code hdrs text =>
      unfold finalizeExec
      dsimp only
      split <;> intro hst
      · exact absurd hst (by simp)
      · exact pySlice_ne_empty (append_ne_empty_left (by decide) _) hcap
  | timedOut =>
      unfold finalizeExec
      dsimp only
      split <;> intro hst
      · exact absurd hst (by simp)
      · exact pySlice_ne_empty (append_ne_empty_left (by decide) _) hcap
  | httpStatusError code text =>
      unfold finalizeExec
      dsimp only
      split <;> intro hst
      · exact pySlice_ne_empty
          (append_ne_empty_left (append_ne_empty_left (append_ne_empty_left (by decide) _) _) _)
          hcap
      · exact pySlice_ne_empty (append_ne_empty_left (by decide) _) hcap
  | exc message =>
      unfold finalizeExec
      dsimp only
      split <;> intro hst
      · exact pySlice_ne_empty (hnd message rfl) hcap
      · exact pySlice_ne_empty (append_ne_empty_left (by decide) _) hcap

lemma storeFresh_applyOp (s : Store) (op : Op) (h : storeFresh s) :
    storeFresh (applyOp s op) := by
  cases op with
  | createConfig d now => exact h
  | updateConfig config_id u now => exact h
  | deleteConfig config_id =>
      simp only [applyOp, FunctionConfigService.delete]
      split <;> exact h
  | execute config_id net t0 t1 t2 t3 =>
      show storeFresh (FunctionExecutionService.execute_function s config_id net t0 t1 t2 t3).1
      rw [store_fst_of_execute]
      cases hc : findConfig s config_id with
      | none => exact h
      | some config =>
          dsimp only [updateExecution]
          intro e he
          rw [List.mem_map] at he
          obtain ⟨x, hx, hxe⟩ := he
          rw [List.mem_append] at hx
          have hxid : x.id < s.nextExecId + 1 := by
            rcases hx with hx | hx
            · exact Nat.lt_succ_of_lt (h x hx)
            · rw [List.mem_singleton] at hx
              subst hx
              exact Nat.lt_succ_self _
          subst hxe
          by_cases hid : (x.id == s.nextExecId) = true
          · rw [if_pos hid]
            show (finalizeExec config net t1 t2 t3 x).id < s.nextExecId + 1
            rw [(finalizeExec_fixed config net t1 t2 t3 x).1]
            exact hxid
          · rw [if_neg hid]
            exact hxid

lemma storeOk_applyOp (s : Store) (op : Op) (hok : StoreOk s) (hwf : op.wf) :
    StoreOk (applyOp s op) := by
  obtain ⟨hfresh, hrec⟩ := hok
  refine ⟨storeFresh_applyOp s op hfresh, ?_⟩
  cases op with
  | createConfig d now => exact hrec
  | updateConfig config_id u now => exact hrec
  | deleteConfig config_id =>
      simp only [applyOp, FunctionConfigService.delete]
      split <;> exact hrec
  | execute config_id net t0 t1 t2 t3 =>
      simp only [Op.wf] at hwf
      show ∀ e ∈ (FunctionExecutionService.execute_function s config_id net t0 t1 t2 t3).1.executions,
        execRecordOk e
      cases hc : findConfig s config_id with
      | none =>
          unfold FunctionExecutionService.execute_function
          rw [hc]
          exact hrec
      | some config =>
          have hf : ∀ e ∈ s.executions, e.id ≠ s.nextExecId :=
            fun e he => Nat.ne_of_lt (hfresh e he)
          rw [execute_function_run s config_id config net t0 t1 t2 t3 hc hf]
          dsimp only
          intro e he
          rw [List.mem_append] at he
          rcases he with he | he
          · exact hrec e he
          · rw [List.mem_singleton] at he
            subst he
            exact finalizeExec_recordOk s config_id config net t0 t1 t2 t3 hwf

lemma storeStrict_applyOp (s : Store) (op : Op) (hfresh : storeFresh s)
    (hstrict : StoreStrict s) (hnd : op.failDescNonEmpty) :
    StoreStrict (applyOp s op) := by
  cases op with
  | createConfig d now => exact hstrict
  | updateConfig config_id u now => exact hstrict
  | deleteConfig config_id =>
      simp only [applyOp, FunctionConfigService.delete]
      split <;> exact hstrict
  | execute config_id net t0 t1 t2 t3 =>
      show StoreStrict (FunctionExecutionService.execute_function s config_id net t0 t1 t2 t3).1
      cases hc : findConfig s config_id with
      | none =>
          unfold FunctionExecutionService.execute_function
          rw [hc]
          exact hstrict
      | some config =>
          have hf : ∀ e ∈ s.executions, e.id ≠ s.nextExecId :=
            fun e he => Nat.ne_of_lt (hfresh e he)
          rw [execute_function_run s config_id config net t0 t1 t2 t3 hc hf]
          dsimp only
          intro e he
          rw [List.mem_append] at he
          rcases he with he | he
          · exact hstrict e he
          · rw [List.mem_singleton] at he
            subst he
            apply finalizeExec_strict
            intro m hm
            subst hm
            exact hnd

lemma storeOk_runOps (ops : List Op) (s : Store) (hok : StoreOk s)
    (hwf : ∀ op ∈ ops, op.wf) : StoreOk (runOps s ops) := by
  induction ops generalizing s with
  | nil => exact hok
  | cons op ops ih =>
      exact ih (applyOp s op)
        (storeOk_applyOp s op hok (hwf op (by simp)))
        (fun o ho => hwf o (by simp [ho]))

lemma storeStrict_runOps (ops : List Op) (s : Store) (hok : StoreOk s)
    (hstrict : StoreStrict s) (hwf : ∀ op ∈ ops, op.wf)
    (hnd : ∀ op ∈ ops, op.failDescNonEmpty) : StoreStrict (runOps s ops) := by
  induction ops generalizing s with
  | nil => exact hstrict
  | cons op ops ih =>
      exact ih (applyOp s op)
        (storeOk_applyOp s op hok (hwf op (by simp)))
        (storeStrict_applyOp s op hok.1 hstrict (hnd op (by simp)))
        (fun o ho => hwf o (by simp [ho]))
        (fun o ho => hnd o (by simp [ho]))

lemma storeOk_empty : StoreOk emptyStore := by
  constructor <;> intro e he <;> simp [emptyStore] at he

lemma storeStrict_empty : StoreStrict emptyStore := by
  intro e he
  simp [emptyStore] at he

lemma finalizeExec_unsupported (config : FunctionConfig) (net : NetOutcome) (t1 t2 t3 : Int)
    (e : FunctionExecution) (hm : supportedMethod (pyUpper config.http_method) = false) :
    finalizeExec config net t1 t2 t3 e =
      { e with
        status := CallStatus.failed
        completed_at := some t2
        error_message := pySlice ("Unsupported HTTP method: " ++ pyUpper config.http_method) 1000
        duration_ms := some (t3 - e.started_at) } := by
  simp [finalizeExec, hm]

lemma finalizeExec_response (config : FunctionConfig) (code : Int)
    (hdrs : List (String × String)) (text : String) (t1 t2 t3 : Int) (e : FunctionExecution)
    (hm : supportedMethod (pyUpper config.http_method) = true) :
    finalizeExec config (NetOutcome.response code hdrs text) t1 t2 t3 e =
      { e with
        status := CallStatus.success
        completed_at := some t2
        duration_ms := some (t2 - t1)
        response_status_code := some code
        response_headers := hdrs
        response_body := pySlice text 10000 } := by
  simp [finalizeExec, hm]

lemma finalizeExec_timedOut (config : FunctionConfig) (t1 t2 t3 : Int) (e : FunctionExecution)
    (hm : supportedMethod (pyUpper config.http_method) = true) :
    finalizeExec config NetOutcome.timedOut t1 t2 t3 e =
      { e with
        status := CallStatus.timeout
        completed_at := some t2
        error_message := pySlice "Request timed out" 1000
        duration_ms := some (t3 - e.started_at) } := by
  simp [finalizeExec, hm]

lemma update_row_preserves (config : FunctionConfig) (net : NetOutcome) (t1 t2 t3 : Int)
    (target : Nat) (x : FunctionExecution) :
    (if x.id == target then finalizeExec config net t1 t2 t3 x else x).id = x.id ∧
    (if x.id == target then finalizeExec config net t1 t2 t3 x else x).request_url = x.request_url ∧
    (if x.id == target then finalizeExec config net t1 t2 t3 x else x).request_method
      = x.request_method ∧
    (if x.id == target then finalizeExec config net t1 t2 t3 x else x).request_headers
      = x.request_headers ∧
    (if x.id == target then finalizeExec config net t1 t2 t3 x else x).request_payload
      = x.request_payload := by
  by_cases hid : (x.id == target) = true
  · rw [if_pos hid]
    have h := finalizeExec_fixed config net t1 t2 t3 x
    exact ⟨h.1, h.2.2.2.1, h.2.2.2.2.1, h.2.2.2.2.2.1, h.2.2.2.2.2.2⟩
  · rw [if_neg hid]
    exact ⟨rfl, rfl, rfl, rfl, rfl⟩

lemma findExecution_after_update (s : Store) (config_id : Nat) (config : FunctionConfig)
    (net : NetOutcome) (t0 t1 t2 t3 : Int) :
    ∃ x, findExecution
        (updateExecution
          { s with
            executions := s.executions ++
              [FunctionExecutionService.newExecution s config_id config t0],
            nextExecId := s.nextExecId + 1 }
          s.nextExecId (finalizeExec config net t1 t2 t3)) s.nextExecId = some x ∧
      (x.status = CallStatus.success ∨ x.status = CallStatus.failed ∨
        x.status = CallStatus.timeout) := by
  have hex : (findExecution
      (updateExecution
        { s with
          executions := s.executions ++
            [FunctionExecutionService.newExecution s config_id config t0],
          nextExecId := s.nextExecId + 1 }
        s.nextExecId (finalizeExec config net t1 t2 t3)) s.nextExecId).isSome := by
    unfold findExecution updateExecution
    dsimp only
    rw [List.find?_isSome]
    refine ⟨if (FunctionExecutionService.newExecution s config_id config t0).id == s.nextExecId
        then finalizeExec config net t1 t2 t3
          (FunctionExecutionService.newExecution s config_id config t0)
        else FunctionExecutionService.newExecution s config_id config t0,
      List.mem_map_of_mem _ (List.mem_append_right _ (List.mem_singleton_self _)), ?_⟩
    have hid : ((FunctionExecutionService.newExecution s config_id config t0).id
        == s.nextExecId) = true := by
      simp [FunctionExecutionService.newExecution]
    rw [if_pos hid]
    rw [(finalizeExec_fixed config net t1 t2 t3
      (FunctionExecutionService.newExecution s config_id config t0)).1]
    exact hid
  obtain ⟨x, hx⟩ := Option.isSome_iff_exists.mp hex
  refine ⟨x, hx, ?_⟩
  have hp := List.find?_some hx
  have hmem := List.mem_of_find?_eq_some hx
  dsimp only [updateExecution] at hmem
  rw [List.mem_map] at hmem
  obtain ⟨y, hy, hyx⟩ := hmem
  by_cases hid : (y.id == s.nextExecId) = true
  · rw [if_pos hid] at hyx
    rw [← hyx]
    exact finalizeExec_terminal config net t1 t2 t3 y
  · rw [if_neg hid] at hyx
    exfalso
    apply hid
    rw [hyx]
    exact hp

/-- Sample creation payload used to instantiate the theorems. -/
def demoConfigData : FunctionConfigCreate :=
  { name := "Ping", endpoint_url := "https://example.test/ok", http_method := "GET",
    timeout_seconds := 10 }

/-- The stored row `create` produces for `demoConfigData` at time 0. -/
def demoConfig : FunctionConfig :=
  { id := 1, name := "Ping", description := "", endpoint_url := "https://example.test/ok",
    http_method := "GET", headers := [], payload := [], timeout_seconds := 10,
    is_active := true, button_color := "primary", display_order := 0,
    created_at := 0, updated_at := 0 }

/-- Store holding just the demo configuration. -/
def demoStore : Store := (FunctionConfigService.create emptyStore demoConfigData 0).1

/-- Trace creating the demo configuration and executing it against a transport
that times out. -/
def demoOps : List Op :=
  [Op.createConfig demoConfigData 0, Op.execute 1 NetOutcome.timedOut 0 0 1 2]

/-- The execution row the demo trace leaves behind. -/
def demoExecTimeout : FunctionExecution :=
  { id := 1, function_config_id := 1, status := CallStatus.timeout, started_at := 0,
    completed_at := some 1, duration_ms := some 2, request_url := "https://example.test/ok",
    request_method := "GET", request_headers := [], request_payload := [],
    response_status_code := none, response_headers := [], response_body := "",
    error_message := "Request timed out" }

/-- Store holding the demo configuration and its timed-out execution. -/
def demoStoreWithExec : Store := runOps emptyStore demoOps

/-- A configuration whose stored method is the lower-case string "patch". -/
def cfgLower : FunctionConfig :=
  { id := 1, name := "Lower", description := "", endpoint_url := "https://example.test/x",
    http_method := "patch", headers := [], payload := [], timeout_seconds := 30,
    is_active := true, button_color := "primary", display_order := 0,
    created_at := 0, updated_at := 0 }

/-- Store holding only `cfgLower`. -/
def demoStoreLower : Store := ⟨[cfgLower], [], 2, 1⟩

/-- The execution produced by running `cfgLower`, whatever the transport does. -/
def execLower : FunctionExecution :=
  { id := 1, function_config_id := 1, status := CallStatus.failed, started_at := 0,
    completed_at := some 0, duration_ms := some 0, request_url := "https://example.test/x",
    request_method := "patch", request_headers := [], request_payload := [],
    response_status_code := none, response_headers := [], response_body := "",
    error_message := "Unsupported HTTP method: PATCH" }

/-- Store after deleting the demo configuration, leaving its execution behind
with a dangling reference. -/
def delStore : Store := runOps emptyStore (demoOps ++ [Op.deleteConfig 1])

/-- The summary row the query service derives from the demo execution. -/
def demoSummary : ExecutionSummary :=
  { id := 1, function_name := "Ping", status := CallStatus.timeout, started_at := 0,
    completed_at := some 1, duration_ms := some 2, response_status_code := none,
    success := false }

/-- C1: once the execution record has been created, `execute_function` never
raises: it returns a record exactly when the configuration id resolves (the
id-less record failure is unreachable with store-assigned primary keys), and
every later problem — unsupported method, timeout, transport error — is
communicated only through the terminal status of the returned record. -/
theorem C1_executeFunction_fails_only_early (s : Store) (config_id : Nat) (net : NetOutcome)
    (t0 t1 t2 t3 : Int) :
    ((FunctionExecutionService.execute_function s config_id net t0 t1 t2 t3).2.isOk = true
      ↔ (findConfig s config_id).isSome = true) ∧
    (∀ e, (FunctionExecutionService.execute_function s config_id net t0 t1 t2 t3).2
        = Except.ok e →
      e.status = CallStatus.success ∨ e.status = CallStatus.failed ∨
        e.status = CallStatus.timeout) := by
  cases hc : findConfig s config_id with
  | none =>
      constructor
      · unfold FunctionExecutionService.execute_function
        rw [hc]
        simp [Except.isOk, Except.toBool]
      · intro e he
        unfold FunctionExecutionService.execute_function at he
        rw [hc] at he
        simp at he
  | some config =>
      obtain ⟨x, hx, hterm⟩ := findExecution_after_update s config_id config net t0 t1 t2 t3
      unfold FunctionExecutionService.execute_function
      rw [hc]
      dsimp only
      rw [execute_api_call_eq, hx]
      constructor
      · simp [Except.isOk, Except.toBool]
      · intro e he
        dsimp only at he
        injection he with he
        rw [← he]
        exact hterm

/-- Witness for C1: the demo call returns a record with terminal status. -/
theorem C1_witness :
    demoExecTimeout.status = CallStatus.success ∨ demoExecTimeout.status = CallStatus.failed ∨
      demoExecTimeout.status = CallStatus.timeout :=
  (C1_executeFunction_fails_only_early demoStore 1 NetOutcome.timedOut 0 0 1 2).2
    demoExecTimeout (by decide)

/-- Trace whose transport exception renders to an empty string. -/
def c2CexOps : List Op :=
  [Op.createConfig demoConfigData 0, Op.execute 1 (NetOutcome.exc "") 0 0 0 0]

/-- C2 (counterexample): at the store reached by `c2CexOps`, the claimed
equivalence fails — a transport exception whose rendered text is empty
(`str(e) == ""`) leaves a FAILED row whose error_message is empty, so
"error_message non-empty iff status ∈ {FAILED, TIMEOUT}" is false. -/
theorem C2_counterexample :
    ¬ (∀ e ∈ (runOps emptyStore c2CexOps).executions,
        ((e.status = CallStatus.success ∨ e.status = CallStatus.failed ∨
            e.status = CallStatus.timeout) →
          e.completed_at.isSome = true ∧ e.duration_ms.isSome = true ∧
            0 ≤ e.duration_ms.getD 0) ∧
        (e.error_message ≠ "" ↔
          (e.status = CallStatus.failed ∨ e.status = CallStatus.timeout)) ∧
        (e.status = CallStatus.success → e.response_status_code.isSome = true)) := by
  decide

/-- C2 (amended): with a monotone wall clock, every stored execution with
terminal status has completed_at and a non-negative duration_ms; SUCCESS rows
carry a response status code and an empty error_message; TIMEOUT rows carry
the fixed timeout message; a non-empty error_message occurs only on FAILED or
TIMEOUT rows; and FAILED rows have a non-empty error_message provided every
transport exception in the trace rendered to non-empty text. -/
theorem C2_execution_record_consistent (ops : List Op) (hwf : ∀ op ∈ ops, Op.wf op) :
    ∀ e ∈ (runOps emptyStore ops).executions,
      ((e.status = CallStatus.success ∨ e.status = CallStatus.failed ∨
          e.status = CallStatus.timeout) →
        e.completed_at.isSome = true ∧ e.duration_ms.isSome = true ∧
          0 ≤ e.duration_ms.getD 0) ∧
      (e.status = CallStatus.success →
        e.response_status_code.isSome = true ∧ e.error_message = "") ∧
      (e.status = CallStatus.timeout → e.error_message = "Request timed out") ∧
      (e.error_message ≠ "" →
        e.status = CallStatus.failed ∨ e.status = CallStatus.timeout) ∧
      ((∀ op ∈ ops, Op.failDescNonEmpty op) →
        e.status = CallStatus.failed → e.error_message ≠ "") := by
  intro e he
  have hok := storeOk_runOps ops emptyStore storeOk_empty hwf
  have hrec := hok.2 e he
  refine ⟨hrec.1, hrec.2.1, hrec.2.2.1, hrec.2.2.2, ?_⟩
  intro hnd
  exact storeStrict_runOps ops emptyStore storeOk_empty storeStrict_empty hwf hnd e he

/-- Witness for C2 at the demo trace and its stored execution. -/
theorem C2_witness :
    ((demoExecTimeout.status = CallStatus.success ∨
        demoExecTimeout.status = CallStatus.failed ∨
        demoExecTimeout.status = CallStatus.timeout) →
      demoExecTimeout.completed_at.isSome = true ∧
        demoExecTimeout.duration_ms.isSome = true ∧
        0 ≤ demoExecTimeout.duration_ms.getD 0) ∧
    (demoExecTimeout.status = CallStatus.success →
      demoExecTimeout.response_status_code.isSome = true ∧
        demoExecTimeout.error_message = "") ∧
    (demoExecTimeout.status = CallStatus.timeout →
      demoExecTimeout.error_message = "Request timed out") ∧
    (demoExecTimeout.error_message ≠ "" →
      demoExecTimeout.status = CallStatus.failed ∨
        demoExecTimeout.status = CallStatus.timeout) ∧
    ((∀ op ∈ demoOps, Op.failDescNonEmpty op) →
      demoExecTimeout.status = CallStatus.failed → demoExecTimeout.error_message ≠ "") :=
  C2_execution_record_consistent demoOps (by decide) demoExecTimeout (by decide)

/-- The claim that the unsupported-method failure message contains the stored
method string literally (rather than its upper-cased normalization). -/
def C3LiteralClaim : Prop :=
  ∀ (s : Store) (config_id : Nat) (config : FunctionConfig) (net : NetOutcome)
    (t0 t1 t2 t3 : Int) (e : FunctionExecution),
    findConfig s config_id = some config →
    supportedMethod (pyUpper config.http_method) = false →
    (FunctionExecutionService.execute_function s config_id net t0 t1 t2 t3).2 = Except.ok e →
    ("Unsupported HTTP method".toList <:+: e.error_message.toList ∧
      config.http_method.toList <:+: e.error_message.toList)

/-- C3 (counterexample): for the stored method string "patch" the recorded
message is "Unsupported HTTP method: PATCH", which does not contain the
literal stored string "patch". -/
theorem C3_counterexample : ¬ C3LiteralClaim := by
  intro h
  have hres := h demoStoreLower 1 cfgLower (NetOutcome.response 200 [] "") 0 0 0 0 execLower
    (by decide) (by decide) (by decide)
  exact absurd hres.2 (by decide)

/-- C3 (amended): for a configuration whose upper-cased method is unsupported,
`execute_function` performs no network transaction (its result does not depend
on the transport outcome) and returns a FAILED execution whose error_message
contains "Unsupported HTTP method" and the upper-cased method string; the
length bound on the stored method comes from the schema's max_length=10. -/
theorem C3_unsupported_method_failure (s : Store) (config_id : Nat) (config : FunctionConfig)
    (net net2 : NetOutcome) (t0 t1 t2 t3 : Int)
    (hc : findConfig s config_id = some config)
    (hm : supportedMethod (pyUpper config.http_method) = false)
    (hlen : config.http_method.length ≤ 10)
    (hf : ∀ e ∈ s.executions, e.id ≠ s.nextExecId) :
    ∃ e, (FunctionExecutionService.execute_function s config_id net t0 t1 t2 t3).2
        = Except.ok e ∧
      e.status = CallStatus.failed ∧
      "Unsupported HTTP method".toList <:+: e.error_message.toList ∧
      (pyUpper config.http_method).toList <:+: e.error_message.toList ∧
      FunctionExecutionService.execute_function s config_id net t0 t1 t2 t3
        = FunctionExecutionService.execute_function s config_id net2 t0 t1 t2 t3 := by
  have hrun := execute_function_run s config_id config net t0 t1 t2 t3 hc hf
  have hrun2 := execute_function_run s config_id config net2 t0 t1 t2 t3 hc hf
  have hfe := finalizeExec_unsupported config net t1 t2 t3
    (FunctionExecutionService.newExecution s config_id config t0) hm
  have hfe2 := finalizeExec_unsupported config net2 t1 t2 t3
    (FunctionExecutionService.newExecution s config_id config t0) hm
  have hmsg : pySlice ("Unsupported HTTP method: " ++ pyUpper config.http_method) 1000
      = "Unsupported HTTP method: " ++ pyUpper config.http_method := by
    apply pySlice_eq_self
    rw [length_append_str, pyUpper_length]
    have h25 : ("Unsupported HTTP method: ").length = 25 := by decide
    omega
  have hcat : "Unsupported HTTP method".toList ++ ": ".toList
      = "Unsupported HTTP method: ".toList := by decide
  refine ⟨finalizeExec config net t1 t2 t3
    (FunctionExecutionService.newExecution s config_id config t0), ?_, ?_, ?_, ?_, ?_⟩
  · rw [hrun]
  · rw [hfe]
  · rw [hfe]
    dsimp only
    rw [hmsg, toList_append]
    exact ⟨[], ": ".toList ++ (pyUpper config.http_method).toList, by
      rw [List.nil_append, ← List.append_assoc, hcat]⟩
  · rw [hfe]
    dsimp only
    rw [hmsg, toList_append]
    exact ⟨"Unsupported HTTP method: ".toList, [], by rw [List.append_nil]⟩
  · rw [hrun, hrun2, hfe, hfe2]

/-- Witness for C3 at the lower-case "patch" configuration, against two
different transport outcomes. -/
theorem C3_witness :
    ∃ e, (FunctionExecutionService.execute_function demoStoreLower 1 NetOutcome.timedOut
        0 0 0 0).2 = Except.ok e ∧
      e.status = CallStatus.failed ∧
      "Unsupported HTTP method".toList <:+: e.error_message.toList ∧
      (pyUpper cfgLower.http_method).toList <:+: e.error_message.toList ∧
      FunctionExecutionService.execute_function demoStoreLower 1 NetOutcome.timedOut 0 0 0 0
        = FunctionExecutionService.execute_function demoStoreLower 1 (NetOutcome.exc "boom")
            0 0 0 0 :=
  C3_unsupported_method_failure demoStoreLower 1 cfgLower NetOutcome.timedOut
    (NetOutcome.exc "boom") 0 0 0 0 (by decide) (by decide) (by decide) (by decide)

/-- C4: whenever the transport produces an HTTP response — whatever its status
code, 4xx and 5xx included — the execution is finalized with status SUCCESS,
response_status_code set to that code, response_headers set, and response_body
set to the response text truncated to 10,000 characters. -/
theorem C4_any_response_is_success (s : Store) (config_id : Nat) (config : FunctionConfig)
    (code : Int) (hdrs : List (String × String)) (text : String) (t0 t1 t2 t3 : Int)
    (hc : findConfig s config_id = some config)
    (hm : supportedMethod (pyUpper config.http_method) = true)
    (hf : ∀ e ∈ s.executions, e.id ≠ s.nextExecId) :
    ∃ e, (FunctionExecutionService.execute_function s config_id
        (NetOutcome.response code hdrs text) t0 t1 t2 t3).2 = Except.ok e ∧
      e.status = CallStatus.success ∧
      e.response_status_code = some code ∧
      e.response_headers = hdrs ∧
      e.response_body = pySlice text 10000 ∧
      e.response_body.length ≤ 10000 ∧
      e.completed_at = some t2 ∧
      e.duration_ms = some (t2 - t1) := by
  have hrun := execute_function_run s config_id config (NetOutcome.response code hdrs text)
    t0 t1 t2 t3 hc hf
  have hfe := finalizeExec_response config code hdrs text t1 t2 t3
    (FunctionExecutionService.newExecution s config_id config t0) hm
  refine ⟨finalizeExec config (NetOutcome.response code hdrs text) t1 t2 t3
    (FunctionExecutionService.newExecution s config_id config t0),
    ?_, ?_, ?_, ?_, ?_, ?_, ?_, ?_⟩
  · rw [hrun]
  · rw [hfe]
  · rw [hfe]
  · rw [hfe]
  · rw [hfe]
  · rw [hfe]
    exact pySlice_length_le text 10000
  · rw [hfe]
  · rw [hfe]

/-- Witness for C4: a 404 response is still finalized as SUCCESS. -/
theorem C4_witness :
    ∃ e, (FunctionExecutionService.execute_function demoStore 1
        (NetOutcome.response 404 [("content-type", "text/html")] "not found") 0 0 1 1).2
        = Except.ok e ∧
      e.status = CallStatus.success ∧
      e.response_status_code = some 404 ∧
      e.response_headers = [("content-type", "text/html")] ∧
      e.response_body = pySlice "not found" 10000 ∧
      e.response_body.length ≤ 10000 ∧
      e.completed_at = some 1 ∧
      e.duration_ms = some (1 - 0) :=
  C4_any_response_is_success demoStore 1 demoConfig 404 [("content-type", "text/html")]
    "not found" 0 0 1 1 (by decide) (by decide) (by decide)

/-- The claim that the creation schema rejects empty names, empty endpoint
urls and unsupported HTTP methods. -/
def C5ValidationClaim : Prop :=
  ∀ d : FunctionConfigCreate, (FunctionConfigCreate.validate d).isOk = true →
    d.name ≠ "" ∧ d.endpoint_url ≠ "" ∧ supportedMethod (pyUpper d.http_method) = true

/-- Creation payload with empty name, empty endpoint url and method PATCH. -/
def c5BadData : FunctionConfigCreate :=
  { name := "", endpoint_url := "", http_method := "PATCH" }

/-- C5 (counterexample): the schema constraints accept an empty name, an empty
endpoint_url and the unsupported method "PATCH" — only length caps and the
timeout range are validated — so the claimed validation does not happen. -/
theorem C5_counterexample : ¬ C5ValidationClaim := by
  intro h
  have hres := h c5BadData (by decide)
  exact hres.1 rfl

lemma validate_ok_bounds (d d2 : FunctionConfigCreate)
    (h : FunctionConfigCreate.validate d = Except.ok d2) :
    1 ≤ d.timeout_seconds ∧ d.timeout_seconds ≤ 300 := by
  unfold FunctionConfigCreate.validate at h
  split_ifs at h
  omega

/-- Conjunction of the pydantic constraints declared on the creation schema
(app/models.py lines 101-113): max_length caps on the string fields and the
[1,300] range on timeout_seconds. -/
def FunctionConfigCreate.pydanticValid (d : FunctionConfigCreate) : Bool :=
  decide (d.name.length ≤ 100) && decide (d.description.length ≤ 500) &&
  decide (d.endpoint_url.length ≤ 500) && decide (d.http_method.length ≤ 10) &&
  decide (1 ≤ d.timeout_seconds) && decide (d.timeout_seconds ≤ 300) &&
  decide (d.button_color.length ≤ 20)

/-- The validation error text names a field whose declared constraint the
data actually violates. -/
def errorNamesViolatedField (d : FunctionConfigCreate) (msg : String) : Prop :=
  ("name".toList <:+: msg.toList ∧ 100 < d.name.length) ∨
  ("description".toList <:+: msg.toList ∧ 500 < d.description.length) ∨
  ("endpoint_url".toList <:+: msg.toList ∧ 500 < d.endpoint_url.length) ∨
  ("http_method".toList <:+: msg.toList ∧ 10 < d.http_method.length) ∨
  ("timeout_seconds".toList <:+: msg.toList ∧
    (d.timeout_seconds < 1 ∨ 300 < d.timeout_seconds)) ∨
  ("button_color".toList <:+: msg.toList ∧ 20 < d.button_color.length)

/-- C5 (amended): `create` validates exactly the declared schema constraints —
timeout_seconds in [1,300] and the max_length caps — accepting the data iff
all of them hold (so empty name/endpoint_url and any method string that fits
in 10 characters pass); every validation failure surfaces an error naming a
field whose constraint is violated, and nothing is persisted; on success
`create` assigns the next id, sets created_at and updated_at to now, appends
exactly the returned record, and touches nothing else. -/
theorem C5_create_validates_and_persists (s : Store) (d : FunctionConfigCreate) (now : Int) :
    ((FunctionConfigCreate.validate d).isOk = true
      ↔ FunctionConfigCreate.pydanticValid d = true) ∧
    (∀ msg, FunctionConfigCreate.validate d = Except.error msg →
      errorNamesViolatedField d msg) ∧
    (FunctionConfigCreate.validate d = Except.ok d →
      (FunctionConfigService.create s d now).2.id = s.nextConfigId ∧
      (FunctionConfigService.create s d now).2.name = d.name ∧
      (FunctionConfigService.create s d now).2.endpoint_url = d.endpoint_url ∧
      (FunctionConfigService.create s d now).2.http_method = d.http_method ∧
      (FunctionConfigService.create s d now).2.timeout_seconds = d.timeout_seconds ∧
      (FunctionConfigService.create s d now).2.is_active = d.is_active ∧
      (FunctionConfigService.create s d now).2.created_at = now ∧
      (FunctionConfigService.create s d now).2.updated_at = now ∧
      (FunctionConfigService.create s d now).1.configs
        = s.configs ++ [(FunctionConfigService.create s d now).2] ∧
      (FunctionConfigService.create s d now).1.executions = s.executions) := by
  refine ⟨?_, ?_, ?_⟩
  · unfold FunctionConfigCreate.validate FunctionConfigCreate.pydanticValid
    split_ifs <;> simp [Except.isOk, Except.toBool] <;> omega
  · intro msg hmsg
    unfold FunctionConfigCreate.validate at hmsg
    split_ifs at hmsg with h1 h2 h3 h4 h5 h6 h7
    · injection hmsg with hm
      subst hm
      exact Or.inl ⟨by decide, h1⟩
    · injection hmsg with hm
      subst hm
      exact Or.inr (Or.inl ⟨by decide, h2⟩)
    · injection hmsg with hm
      subst hm
      exact Or.inr (Or.inr (Or.inl ⟨by decide, h3⟩))
    · injection hmsg with hm
      subst hm
      exact Or.inr (Or.inr (Or.inr (Or.inl ⟨by decide, h4⟩)))
    · injection hmsg with hm
      subst hm
      exact Or.inr (Or.inr (Or.inr (Or.inr (Or.inl ⟨by decide, Or.inl h5⟩))))
    · injection hmsg with hm
      subst hm
      exact Or.inr (Or.inr (Or.inr (Or.inr (Or.inl ⟨by decide, Or.inr h6⟩))))
    · injection hmsg with hm
      subst hm
      exact Or.inr (Or.inr (Or.inr (Or.inr (Or.inr ⟨by decide, h7⟩))))
  · intro _
    exact ⟨rfl, rfl, rfl, rfl, rfl, rfl, rfl, rfl, rfl, rfl⟩

/-- Creation payload whose timeout is below the allowed minimum. -/
def c5TimeoutBad : FunctionConfigCreate :=
  { name := "Slow", endpoint_url := "https://example.test/slow", timeout_seconds := 0 }

/-- Creation payload whose name exceeds the 100-character cap. -/
def c5NameLong : FunctionConfigCreate :=
  { name := ⟨List.replicate 101 'x'⟩, endpoint_url := "https://example.test/a" }

/-- Witness for C5: the over-long name and the out-of-range timeout are each
rejected with a message naming the violated field, and the valid demo payload
is persisted with id and timestamps. -/
theorem C5_witness :
    ((FunctionConfigCreate.validate c5NameLong).isOk = true
      ↔ FunctionConfigCreate.pydanticValid c5NameLong = true) ∧
    errorNamesViolatedField c5NameLong "name: string too long" ∧
    errorNamesViolatedField c5TimeoutBad "timeout_seconds: value below minimum of 1" ∧
    (FunctionConfigService.create emptyStore demoConfigData 7).2.id = emptyStore.nextConfigId ∧
    (FunctionConfigService.create emptyStore demoConfigData 7).2.created_at = 7 ∧
    (FunctionConfigService.create emptyStore demoConfigData 7).2.updated_at = 7 ∧
    (FunctionConfigService.create emptyStore demoConfigData 7).1.configs
      = emptyStore.configs ++ [(FunctionConfigService.create emptyStore demoConfigData 7).2] :=
  ⟨(C5_create_validates_and_persists emptyStore c5NameLong 7).1,
   (C5_create_validates_and_persists emptyStore c5NameLong 7).2.1
     "name: string too long" (by decide),
   (C5_create_validates_and_persists emptyStore c5TimeoutBad 7).2.1
     "timeout_seconds: value below minimum of 1" (by decide),
   ((C5_create_validates_and_persists emptyStore demoConfigData 7).2.2 (by decide)).1,
   ((C5_create_validates_and_persists emptyStore demoConfigData 7).2.2
     (by decide)).2.2.2.2.2.2.1,
   ((C5_create_validates_and_persists emptyStore demoConfigData 7).2.2
     (by decide)).2.2.2.2.2.2.2.1,
   ((C5_create_validates_and_persists emptyStore demoConfigData 7).2.2
     (by decide)).2.2.2.2.2.2.2.2.1⟩

/-- C6: the request fields of an execution are a verbatim snapshot of the
configuration taken when the record is created — the returned record carries
exactly that snapshot — and no operation (completion, failure marking,
configuration create/update/delete or another execution) ever changes the
request fields of a stored execution row. -/
theorem C6_request_snapshot_immutable :
    (∀ (s : Store) (config_id : Nat) (config : FunctionConfig) (net : NetOutcome)
        (t0 t1 t2 t3 : Int),
      findConfig s config_id = some config →
      (∀ e ∈ s.executions, e.id ≠ s.nextExecId) →
      ∃ e, (FunctionExecutionService.execute_function s config_id net t0 t1 t2 t3).2
          = Except.ok e ∧
        e.request_url = config.endpoint_url ∧
        e.request_method = config.http_method ∧
        e.request_headers = config.headers ∧
        e.request_payload = config.payload) ∧
    (∀ (s : Store) (op : Op) (e : FunctionExecution), e ∈ s.executions →
      ∃ e2 ∈ (applyOp s op).executions, e2.id = e.id ∧
        e2.request_url = e.request_url ∧
        e2.request_method = e.request_method ∧
        e2.request_headers = e.request_headers ∧
        e2.request_payload = e.request_payload) := by
  constructor
  · intro s config_id config net t0 t1 t2 t3 hc hf
    have hrun := execute_function_run s config_id config net t0 t1 t2 t3 hc hf
    have hfix := finalizeExec_fixed config net t1 t2 t3
      (FunctionExecutionService.newExecution s config_id config t0)
    refine ⟨finalizeExec config net t1 t2 t3
      (FunctionExecutionService.newExecution s config_id config t0), ?_, ?_, ?_, ?_, ?_⟩
    · rw [hrun]
    · exact hfix.2.2.2.1
    · exact hfix.2.2.2.2.1
    · exact hfix.2.2.2.2.2.1
    · exact hfix.2.2.2.2.2.2
  · intro s op e he
    cases op with
    | createConfig d now => exact ⟨e, he, rfl, rfl, rfl, rfl, rfl⟩
    | updateConfig config_id u now => exact ⟨e, he, rfl, rfl, rfl, rfl, rfl⟩
    | deleteConfig config_id =>
        refine ⟨e, ?_, rfl, rfl, rfl, rfl, rfl⟩
        simp only [applyOp, FunctionConfigService.delete]
        split <;> exact he
    | execute config_id net t0 t1 t2 t3 =>
        show ∃ e2 ∈ (FunctionExecutionService.execute_function s config_id net
          t0 t1 t2 t3).1.executions, _
        rw [store_fst_of_execute]
        cases hc : findConfig s config_id with
        | none => exact ⟨e, he, rfl, rfl, rfl, rfl, rfl⟩
        | some config =>
            dsimp only [updateExecution]
            have hp := update_row_preserves config net t1 t2 t3 s.nextExecId e
            refine ⟨if e.id == s.nextExecId then finalizeExec config net t1 t2 t3 e else e,
              ?_, hp.1, hp.2.1, hp.2.2.1, hp.2.2.2.1, hp.2.2.2.2⟩
            exact List.mem_map_of_mem _ (List.mem_append_left _ he)

/-- Witness for C6: the demo call snapshots the demo configuration, and
deleting the configuration afterwards leaves the stored snapshot intact. -/
theorem C6_witness :
    (∃ e, (FunctionExecutionService.execute_function demoStore 1 NetOutcome.timedOut
        0 0 1 2).2 = Except.ok e ∧
      e.request_url = demoConfig.endpoint_url ∧
      e.request_method = demoConfig.http_method ∧
      e.request_headers = demoConfig.headers ∧
      e.request_payload = demoConfig.payload) ∧
    (∃ e2 ∈ (applyOp demoStoreWithExec (Op.deleteConfig 1)).executions,
      e2.id = demoExecTimeout.id ∧
      e2.request_url = demoExecTimeout.request_url ∧
      e2.request_method = demoExecTimeout.request_method ∧
      e2.request_headers = demoExecTimeout.request_headers ∧
      e2.request_payload = demoExecTimeout.request_payload) :=
  ⟨C6_request_snapshot_immutable.1 demoStore 1 demoConfig NetOutcome.timedOut 0 0 1 2
      (by decide) (by decide),
   C6_request_snapshot_immutable.2 demoStoreWithExec (Op.deleteConfig 1) demoExecTimeout
      (by decide)⟩

/-- C7: a call that times out is finalized with status TIMEOUT, error_message
exactly "Request timed out", completed_at set, and duration_ms computed from
the row's started_at. -/
theorem C7_timeout_recorded (s : Store) (config_id : Nat) (config : FunctionConfig)
    (t0 t1 t2 t3 : Int)
    (hc : findConfig s config_id = some config)
    (hm : supportedMethod (pyUpper config.http_method) = true)
    (hf : ∀ e ∈ s.executions, e.id ≠ s.nextExecId) :
    ∃ e, (FunctionExecutionService.execute_function s config_id NetOutcome.timedOut
        t0 t1 t2 t3).2 = Except.ok e ∧
      e.status = CallStatus.timeout ∧
      e.error_message = "Request timed out" ∧
      e.completed_at = some t2 ∧
      e.duration_ms = some (t3 - t0) := by
  have hrun := execute_function_run s config_id config NetOutcome.timedOut t0 t1 t2 t3 hc hf
  have hfe := finalizeExec_timedOut config t1 t2 t3
    (FunctionExecutionService.newExecution s config_id config t0) hm
  refine ⟨finalizeExec config NetOutcome.timedOut t1 t2 t3
    (FunctionExecutionService.newExecution s config_id config t0), ?_, ?_, ?_, ?_, ?_⟩
  · rw [hrun]
  · rw [hfe]
  · rw [hfe]
    show pySlice "Request timed out" 1000 = "Request timed out"
    decide
  · rw [hfe]
  · rw [hfe]
    rfl

/-- Witness for C7 at the demo configuration. -/
theorem C7_witness :
    ∃ e, (FunctionExecutionService.execute_function demoStore 1 NetOutcome.timedOut
        0 0 1 2).2 = Except.ok e ∧
      e.status = CallStatus.timeout ∧
      e.error_message = "Request timed out" ∧
      e.completed_at = some 1 ∧
      e.duration_ms = some (2 - 0) :=
  C7_timeout_recorded demoStore 1 demoConfig 0 0 1 2 (by decide) (by decide) (by decide)

/-- C8: however large the response body or error text produced by a call, the
stored response_body never exceeds 10,000 characters and the stored
error_message never exceeds 1,000 characters, in every reachable store. -/
theorem C8_stored_sizes_capped (ops : List Op) (e : FunctionExecution)
    (he : e ∈ (runOps emptyStore ops).executions) :
    e.response_body.length ≤ 10000 ∧ e.error_message.length ≤ 1000 :=
  bounds_runOps ops emptyStore (fun x hx => absurd hx (List.not_mem_nil x)) e he

/-- Witness for C8 at the demo trace. -/
theorem C8_witness :
    demoExecTimeout.response_body.length ≤ 10000 ∧
      demoExecTimeout.error_message.length ≤ 1000 :=
  C8_stored_sizes_capped demoOps demoExecTimeout (by decide)

/-- C9: `get_all_active` returns exactly the configurations with
is_active = true, sorted ascending by display_order with name as tie-break. -/
theorem C9_getAllActive_filtered_sorted (s : Store) :
    (∀ c, c ∈ FunctionConfigService.get_all_active s ↔
      (c ∈ s.configs ∧ c.is_active = true)) ∧
    List.Sorted configOrder (FunctionConfigService.get_all_active s) := by
  constructor
  · intro c
    unfold FunctionConfigService.get_all_active
    rw [(List.perm_insertionSort configOrder _).mem_iff, List.mem_filter]
  · exact List.sorted_insertionSort configOrder _

/-- C10: the execution-to-configuration join of `get_recent_executions` is an
inner join — every returned summary stems from an execution whose referenced
configuration row still exists, and an execution whose configuration has been
deleted is silently omitted rather than reported with a placeholder or an
error. -/
theorem C10_recent_requires_live_config (s : Store) (limit : Nat) :
    (∀ sm ∈ FunctionExecutionService.get_recent_executions s limit,
      ∃ ex ∈ s.executions, ex.id = sm.id ∧
        ∃ c, findConfig s ex.function_config_id = some c ∧ c ∈ s.configs ∧
          sm.function_name = c.name) ∧
    (∀ e ∈ s.executions, findConfig s e.function_config_id = none →
      (∀ e2 ∈ s.executions, e2.id = e.id → e2 = e) →
      ∀ sm ∈ FunctionExecutionService.get_recent_executions s limit, sm.id ≠ e.id) := by
  have main : ∀ sm ∈ FunctionExecutionService.get_recent_executions s limit,
      ∃ ex ∈ s.executions, ex.id = sm.id ∧
        ∃ c, findConfig s ex.function_config_id = some c ∧ c ∈ s.configs ∧
          sm.function_name = c.name := by
    intro sm hsm
    unfold FunctionExecutionService.get_recent_executions at hsm
    dsimp only at hsm
    rw [List.mem_map] at hsm
    obtain ⟨r, hr, hproj⟩ := hsm
    have hr2 : r ∈ List.insertionSort execDescOrder
        (s.executions.filterMap (fun e =>
          (findConfig s e.function_config_id).map (fun c => (e, c.name)))) :=
      List.take_subset _ _ hr
    rw [(List.perm_insertionSort execDescOrder _).mem_iff] at hr2
    rw [List.mem_filterMap] at hr2
    obtain ⟨ex, hex, hopt⟩ := hr2
    obtain ⟨c, hc, hrc⟩ := Option.map_eq_some'.mp hopt
    subst hrc
    subst hproj
    exact ⟨ex, hex, rfl, c, hc, List.mem_of_find?_eq_some hc, rfl⟩
  refine ⟨main, ?_⟩
  intro e he hnone huniq sm hsm hid
  obtain ⟨ex, hexmem, hexid, c, hc, _, _⟩ := main sm hsm
  have hxe : ex = e := huniq ex hexmem (hexid.trans hid)
  rw [hxe, hnone] at hc
  cases hc

/-- Witness for C10: with the configuration present the summary is returned
and joined to its name; after deleting the configuration the dangling
execution is omitted from the results. -/
theorem C10_witness :
    (∃ ex ∈ demoStoreWithExec.executions, ex.id = demoSummary.id ∧
      ∃ c, findConfig demoStoreWithExec ex.function_config_id = some c ∧
        c ∈ demoStoreWithExec.configs ∧ demoSummary.function_name = c.name) ∧
    (∀ sm ∈ FunctionExecutionService.get_recent_executions delStore 20,
      sm.id ≠ demoExecTimeout.id) :=
  ⟨(C10_recent_requires_live_config demoStoreWithExec 20).1 demoSummary (by decide),
   (C10_recent_requires_live_config delStore 20).2 demoExecTimeout (by decide) (by decide)
     (by decide)⟩
